import Mathlib

/-
Shallow embedding of the account service in src/server.js (Meridian).
The persistent store (PostgreSQL table `users`) is modelled as a list of
rows plus the next SERIAL value; the password-hashing primitive (bcrypt)
is an external collaborator and is abstracted as function parameters
`bhash` (salted hash) and `bcompare` (hash verification).  Each HTTP
handler becomes a pure function from the request data and the store to a
response (status code plus JSON body) and, for mutating handlers, the
updated store.  JSON bodies are modelled explicitly so that statements
about which fields a payload contains are meaningful.
-/

set_option autoImplicit false

/-- One row of the `users` table, as created by the CREATE TABLE statement
in src/server.js: id SERIAL, email, username, password (the stored hash),
points INTEGER DEFAULT 0, created_at TIMESTAMP. -/
structure User where
  id : Nat
  email : String
  username : String
  password : String
  points : Int
  created_at : Nat
deriving DecidableEq, Repr

/-- The store: the rows of the `users` table together with the next value
of the SERIAL sequence backing `id`. -/
structure DB where
  users : List User
  nextId : Nat
deriving DecidableEq, Repr

/-- Atomic JSON values appearing in the response bodies of server.js. -/
inductive JAtom where
  | jstr (s : String)
  | jint (n : Int)
  | jbool (b : Bool)
deriving DecidableEq, Repr

/-- A JSON value at the top level of a response body: an atom or a flat
object (the `user` objects in server.js are flat). -/
inductive JVal where
  | atom (a : JAtom)
  | obj (fields : List (String × JAtom))
deriving DecidableEq, Repr

/-- A response body: a JSON object, a list of key/value pairs. -/
abbrev JsonBody := List (String × JVal)

/-- All field names occurring anywhere in a body, nested objects included. -/
def bodyKeys (b : JsonBody) : List String :=
  b.foldr (fun kv acc =>
    kv.1 :: (match kv.2 with
             | JVal.atom _ => []
             | JVal.obj fs => fs.map Prod.fst) ++ acc) []

/-- An HTTP response: status code and JSON body. -/
structure Response where
  status : Nat
  body : JsonBody
deriving DecidableEq, Repr

/-- Body of an error response: res.status(c).json with success:false and a
message, as in every failure branch of server.js. -/
def errBody (message : String) : JsonBody :=
  [("success", JVal.atom (JAtom.jbool false)),
   ("message", JVal.atom (JAtom.jstr message))]

/-- Body of a success response carrying id, email, username, points: shape
of the register, login and getUser success payloads. -/
def okUserBody (id : Nat) (email username : String) (points : Int) : JsonBody :=
  [("success", JVal.atom (JAtom.jbool true)),
   ("user", JVal.obj
     [("id", JAtom.jint (Int.ofNat id)),
      ("email", JAtom.jstr email),
      ("username", JAtom.jstr username),
      ("points", JAtom.jint points)])]

/-- Body of the add-points success payload: RETURNING id, username, points. -/
def okPointsBody (id : Nat) (username : String) (points : Int) : JsonBody :=
  [("success", JVal.atom (JAtom.jbool true)),
   ("user", JVal.obj
     [("id", JAtom.jint (Int.ofNat id)),
      ("username", JAtom.jstr username),
      ("points", JAtom.jint points)])]

/-- The fixed login failure message of server.js (lines 63 and 70),
Russian for "Invalid username or password". -/
def loginFailMsg : String := "Неверный логин или пароль"

/-- The not-found message of server.js (lines 99 and 119), Russian for
"User not found". -/
def userNotFoundMsg : String := "Пользователь не найден"

/-- Message produced by the external bcrypt library when `password` is
missing and bcrypt.hash throws; the exact text comes from the library,
not this repository, and no claim depends on it. -/
def bcryptMissingDataMsg : String := "data and salt arguments required"

/-- Message produced by the external store on a duplicate email; exact
text comes from PostgreSQL, no claim depends on it. -/
def pgUniqueEmailMsg : String :=
  "duplicate key value violates unique constraint users_email_key"

/-- Message produced by the external store on a duplicate username; exact
text comes from PostgreSQL, no claim depends on it. -/
def pgUniqueUsernameMsg : String :=
  "duplicate key value violates unique constraint users_username_key"

/-- Message produced by the external store on a missing required column;
exact text comes from PostgreSQL, no claim depends on it. -/
def pgNotNullMsg : String := "null value violates not-null constraint"

/-- POST /api/register (server.js lines 38 to 52).  Inputs are Options:
`none` models a field absent from the JSON body.  bcrypt.hash is called
first and throws when password is undefined; the INSERT then enforces the
NOT NULL and UNIQUE constraints of the table; any thrown error reaches
the catch block, which answers 400 with err.message.  On success the
inserted row is returned via RETURNING id, email, username, points, with
points defaulted to 0 and id drawn from the SERIAL sequence. -/
def register (bhash : String → String) (db : DB) (now : Nat)
    (email username password : Option String) : Response × DB :=
  match password with
  | none => (⟨400, errBody bcryptMissingDataMsg⟩, db)
  | some pw =>
    let hashed := bhash pw
    match email, username with
    | some e, some un =>
      if db.users.any (fun r => r.email == e) then
        (⟨400, errBody pgUniqueEmailMsg⟩, db)
      else if db.users.any (fun r => r.username == un) then
        (⟨400, errBody pgUniqueUsernameMsg⟩, db)
      else
        let newUser : User :=
          { id := db.nextId, email := e, username := un,
            password := hashed, points := 0, created_at := now }
        (⟨200, okUserBody db.nextId e un 0⟩,
         ⟨db.users ++ [newUser], db.nextId + 1⟩)
    | _, _ => (⟨400, errBody pgNotNullMsg⟩, db)

/-- POST /api/login (server.js lines 56 to 85), non-exception paths.
SELECT * FROM users WHERE username = $1, take rows[0] if any; if no row,
401 with the fixed message; otherwise bcrypt.compare the password against
the stored hash; on mismatch the same 401; on success 200 with id, email,
username, points of the row (the hash is not copied into the payload). -/
def login (bcompare : String → String → Bool) (db : DB)
    (username password : String) : Response :=
  match db.users.find? (fun r => r.username == username) with
  | none => ⟨401, errBody loginFailMsg⟩
  | some u =>
    if bcompare password u.password then
      ⟨200, okUserBody u.id u.email u.username u.points⟩
    else
      ⟨401, errBody loginFailMsg⟩

/-- The catch block of POST /api/login (server.js lines 82 to 84): when
the store or the hashing primitive throws an exception whose message is
`errMessage`, the handler answers 500 with that raw message. -/
def loginCatch (errMessage : String) : Response :=
  ⟨500, errBody errMessage⟩

/-- The single UPDATE statement of POST /api/add-points (server.js lines
93 to 96): UPDATE users SET points = points + $1 WHERE id = $2, one
atomic store operation touching exactly the matching rows. -/
def runUpdate (users : List User) (userId : Nat) (delta : Int) : List User :=
  users.map (fun u =>
    if u.id == userId then { u with points := u.points + delta } else u)

/-- POST /api/add-points (server.js lines 89 to 106).  The handler issues
the single UPDATE above; RETURNING yields the affected rows; if none, 404
with the fixed message (the store is unchanged since no row matched);
otherwise 200 with id, username, points of rows[0]. -/
def addPoints (db : DB) (userId : Nat) (delta : Int) : Response × DB :=
  let updated := runUpdate db.users userId delta
  let db' : DB := ⟨updated, db.nextId⟩
  match updated.find? (fun u => u.id == userId) with
  | none => (⟨404, errBody userNotFoundMsg⟩, db')
  | some u => (⟨200, okPointsBody u.id u.username u.points⟩, db')

/-- GET /api/user/:userId (server.js lines 109 to 126): SELECT id, email,
username, points FROM users WHERE id = $1; 404 if no row, else 200 with
the projected row. -/
def getUser (db : DB) (userId : Nat) : Response :=
  match db.users.find? (fun u => u.id == userId) with
  | none => ⟨404, errBody userNotFoundMsg⟩
  | some u => ⟨200, okUserBody u.id u.email u.username u.points⟩

/-- N sequential applications of addPoints with delta 1, the store-level
effect of any interleaving of N concurrent add-points requests: each
request performs exactly one atomic store operation (the single UPDATE),
so an interleaving of N requests is a sequence of N such operations. -/
def addPointsN (userId : Nat) : Nat → DB → DB
  | 0, db => db
  | n + 1, db => addPointsN userId n (addPoints db userId 1).2

/-
Helper lemmas about the store model.
-/

/-- The per-row effect of the UPDATE statement in addPoints. -/
def bumpRow (userId : Nat) (delta : Int) (u : User) : User :=
  if u.id == userId then { u with points := u.points + delta } else u

lemma runUpdate_eq_map (users : List User) (uid : Nat) (d : Int) :
    runUpdate users uid d = users.map (bumpRow uid d) := rfl

lemma bumpRow_id (uid : Nat) (d : Int) (u : User) :
    (bumpRow uid d u).id = u.id := by
  unfold bumpRow; split <;> rfl

lemma bumpRow_of_match (uid : Nat) (d : Int) (u : User) (h : u.id = uid) :
    bumpRow uid d u = { u with points := u.points + d } := by
  unfold bumpRow; simp [h]

lemma runUpdate_pairwise (users : List User) (uid : Nat) (d : Int)
    (hp : users.Pairwise (fun a b => a.id ≠ b.id)) :
    (runUpdate users uid d).Pairwise (fun a b => a.id ≠ b.id) := by
  rw [runUpdate_eq_map]
  exact hp.map (bumpRow uid d)
    (fun a b hab => by simpa [bumpRow_id] using hab)

lemma runUpdate_of_no_match (users : List User) (uid : Nat) (d : Int)
    (h : ∀ u ∈ users, u.id ≠ uid) : runUpdate users uid d = users := by
  rw [runUpdate_eq_map]
  have hpt : ∀ u ∈ users, bumpRow uid d u = id u := by
    intro u hu
    unfold bumpRow
    simp [h u hu]
  rw [List.map_congr_left hpt, List.map_id]

/-- In a list whose rows have pairwise distinct keys, find? at the key of
a member returns exactly that member. -/
lemma find_key_eq {κ : Type} [BEq κ] [LawfulBEq κ] (key : User → κ)
    (l : List User) (k : κ)
    (hp : l.Pairwise (fun a b => key a ≠ key b))
    (u : User) (hm : u ∈ l) (hk : key u = k) :
    l.find? (fun v => key v == k) = some u := by
  induction l with
  | nil => cases hm
  | cons h t ih =>
    rcases List.pairwise_cons.mp hp with ⟨hh, ht⟩
    rcases List.mem_cons.mp hm with rfl | hmt
    · exact List.find?_cons_of_pos _ (by simp [hk])
    · have hne : (key h == k) = false := by
        simp only [beq_eq_false_iff_ne, ne_eq]
        intro he
        exact hh u hmt (he.trans hk.symm)
      rw [List.find?_cons]
      simp only [hne]
      exact ih ht hmt

lemma addPoints_store_effect (db : DB) (uid : Nat) (d : Int) :
    (addPoints db uid d).2 = ⟨runUpdate db.users uid d, db.nextId⟩ := by
  cases hf : (runUpdate db.users uid d).find? (fun u => u.id == uid) <;>
    simp [addPoints, hf]

/-- When a row with the given id is present (ids pairwise distinct), the
add-points handler answers 200 with the updated points and the store
holds exactly the one-statement update. -/
lemma addPoints_found (db : DB) (uid : Nat) (d : Int) (u : User)
    (hp : db.users.Pairwise (fun a b => a.id ≠ b.id))
    (hm : u ∈ db.users) (hid : u.id = uid) :
    addPoints db uid d =
      (⟨200, okPointsBody uid u.username (u.points + d)⟩,
       ⟨runUpdate db.users uid d, db.nextId⟩) := by
  have hm' : bumpRow uid d u ∈ runUpdate db.users uid d := by
    rw [runUpdate_eq_map]
    exact List.mem_map_of_mem _ hm
  have hfind : (runUpdate db.users uid d).find? (fun v => v.id == uid)
      = some (bumpRow uid d u) :=
    find_key_eq (fun v => v.id) _ uid (runUpdate_pairwise _ _ _ hp)
      _ hm' (by simpa [bumpRow_id] using hid)
  rw [bumpRow_of_match uid d u hid] at hfind
  simp [addPoints, hfind, hid]

/-- Any login outcome that is not a 200 success is exactly the 401
response with the fixed generic message. -/
lemma login_non200_eq_generic (bc : String → String → Bool) (db : DB)
    (un pw : String) (h : (login bc db un pw).status ≠ 200) :
    login bc db un pw = ⟨401, errBody loginFailMsg⟩ := by
  unfold login at h ⊢
  cases hf : db.users.find? (fun r => r.username == un) with
  | none => rfl
  | some u =>
    rw [hf] at h
    by_cases hc : bc pw u.password = true
    · simp [hc] at h
    · simp only [hc]
      simp [Bool.not_eq_true] at hc
      simp [hc]

lemma bodyKeys_errBody (m : String) :
    bodyKeys (errBody m) = ["success", "message"] := rfl

lemma bodyKeys_okUserBody (i : Nat) (e u : String) (p : Int) :
    bodyKeys (okUserBody i e u p) =
      ["success", "user", "id", "email", "username", "points"] := rfl

lemma bodyKeys_okPointsBody (i : Nat) (u : String) (p : Int) :
    bodyKeys (okPointsBody i u p) =
      ["success", "user", "id", "username", "points"] := rfl

/-
Concrete objects used by witnesses and counterexamples.
-/

/-- A concrete model of the salted-hash primitive for witnesses. -/
def bhash0 : String → String := fun pw => "H:" ++ pw

/-- The matching concrete model of bcrypt.compare for witnesses. -/
def bc0 : String → String → Bool := fun pw h => h == "H:" ++ pw

/-- A concrete stored row for witnesses. -/
def user1 : User :=
  { id := 1, email := "a@x.com", username := "alice",
    password := "H:secret", points := 0, created_at := 0 }

/-- A concrete store holding exactly user1. -/
def db1 : DB := { users := [user1], nextId := 2 }

/-
Body-shape lemmas: every response body produced by a handler is either an
error body or one of the two success bodies.
-/

lemma register_body_shape (bhash : String → String) (db : DB) (now : Nat)
    (e un pw : Option String) :
    (∃ m, (register bhash db now e un pw).1.body = errBody m) ∨
    ∃ i a b p, (register bhash db now e un pw).1.body = okUserBody i a b p := by
  unfold register
  rcases pw with _ | pw
  · exact Or.inl ⟨_, rfl⟩
  · rcases e with _ | e <;> rcases un with _ | un
    · exact Or.inl ⟨_, rfl⟩
    · exact Or.inl ⟨_, rfl⟩
    · exact Or.inl ⟨_, rfl⟩
    · by_cases h1 : db.users.any (fun r => r.email == e) = true
      · exact Or.inl ⟨pgUniqueEmailMsg, by simp [h1]⟩
      · by_cases h2 : db.users.any (fun r => r.username == un) = true
        · exact Or.inl ⟨pgUniqueUsernameMsg, by simp [h1, h2]⟩
        · exact Or.inr ⟨db.nextId, e, un, 0, by simp [h1, h2]⟩

lemma login_body_shape (bc : String → String → Bool) (db : DB)
    (lu lp : String) :
    (login bc db lu lp).body = errBody loginFailMsg ∨
    ∃ i a b p, (login bc db lu lp).body = okUserBody i a b p := by
  unfold login
  cases hf : db.users.find? (fun r => r.username == lu) with
  | none => exact Or.inl rfl
  | some u =>
    by_cases hc : bc lp u.password = true
    · exact Or.inr ⟨u.id, u.email, u.username, u.points, by simp [hc]⟩
    · exact Or.inl (by simp [hc])

lemma addPoints_body_shape (db : DB) (uid : Nat) (d : Int) :
    (addPoints db uid d).1.body = errBody userNotFoundMsg ∨
    ∃ i a p, (addPoints db uid d).1.body = okPointsBody i a p := by
  cases hf : (runUpdate db.users uid d).find? (fun u => u.id == uid) with
  | none => exact Or.inl (by simp [addPoints, hf])
  | some u =>
    exact Or.inr ⟨u.id, u.username, u.points, by simp [addPoints, hf]⟩

lemma getUser_body_shape (db : DB) (uid : Nat) :
    (getUser db uid).body = errBody userNotFoundMsg ∨
    ∃ i a b p, (getUser db uid).body = okUserBody i a b p := by
  unfold getUser
  cases hf : db.users.find? (fun u => u.id == uid) with
  | none => exact Or.inl rfl
  | some u => exact Or.inr ⟨u.id, u.email, u.username, u.points, by simp⟩

/-
Claim theorems.
-/

/-- Claim C5: for every user id that matches no record, addPoints answers
404 with the not-found error body and leaves the entire store unchanged
(no points value or any other field of any user is modified). -/
theorem addPoints_missing_user (db : DB) (uid : Nat) (d : Int)
    (h : ∀ r ∈ db.users, r.id ≠ uid) :
    addPoints db uid d = (⟨404, errBody userNotFoundMsg⟩, db) := by
  have hrun : runUpdate db.users uid d = db.users :=
    runUpdate_of_no_match _ _ _ h
  have hfind : db.users.find? (fun u => u.id == uid) = none := by
    rw [List.find?_eq_none]
    intro x hx
    simpa using h x hx
  simp [addPoints, hrun, hfind]

/-- Witness for Claim C5 at a concrete store and id. -/
theorem addPoints_missing_user_witness :
    (∀ r ∈ db1.users, r.id ≠ 7) ∧
    addPoints db1 7 5 = (⟨404, errBody userNotFoundMsg⟩, db1) :=
  ⟨by decide, addPoints_missing_user db1 7 5 (by decide)⟩

/-- Claim C6: for every request to any of the four operations and every
store state, the response body never contains a field named password, the
column holding the stored hash. -/
theorem no_password_field_in_responses (bhash : String → String)
    (bc : String → String → Bool) (db : DB) (now : Nat)
    (e un pw : Option String) (lu lp : String) (uid gid : Nat) (d : Int) :
    "password" ∉ bodyKeys (register bhash db now e un pw).1.body ∧
    "password" ∉ bodyKeys (login bc db lu lp).body ∧
    "password" ∉ bodyKeys (addPoints db uid d).1.body ∧
    "password" ∉ bodyKeys (getUser db gid).body := by
  refine ⟨?_, ?_, ?_, ?_⟩
  · rcases register_body_shape bhash db now e un pw with ⟨m, hb⟩ | ⟨i, a, b, p, hb⟩ <;>
      rw [hb]
    · rw [bodyKeys_errBody]; decide
    · rw [bodyKeys_okUserBody]; decide
  · rcases login_body_shape bc db lu lp with hb | ⟨i, a, b, p, hb⟩ <;> rw [hb]
    · rw [bodyKeys_errBody]; decide
    · rw [bodyKeys_okUserBody]; decide
  · rcases addPoints_body_shape db uid d with hb | ⟨i, a, p, hb⟩ <;> rw [hb]
    · rw [bodyKeys_errBody]; decide
    · rw [bodyKeys_okPointsBody]; decide
  · rcases getUser_body_shape db gid with hb | ⟨i, a, b, p, hb⟩ <;> rw [hb]
    · rw [bodyKeys_errBody]; decide
    · rw [bodyKeys_okUserBody]; decide

/-- Claim C3: a login with a username matching no record and a login with
an existing username but a non-matching password produce identical
responses: same status 401 and same fixed message body. -/
theorem login_enumeration_resistance (bc : String → String → Bool) (db : DB)
    (u1 p1 u2 p2 : String)
    (h1 : ∀ r ∈ db.users, r.username ≠ u1)
    (h2 : ∃ r ∈ db.users, r.username = u2)
    (h3 : ∀ r ∈ db.users, r.username = u2 → bc p2 r.password = false) :
    login bc db u1 p1 = login bc db u2 p2 ∧
    (login bc db u1 p1).status = 401 ∧
    (login bc db u1 p1).body = errBody loginFailMsg := by
  have e1 : login bc db u1 p1 = ⟨401, errBody loginFailMsg⟩ := by
    unfold login
    have hn : db.users.find? (fun r => r.username == u1) = none := by
      rw [List.find?_eq_none]
      intro x hx
      simpa using h1 x hx
    rw [hn]
  have e2 : login bc db u2 p2 = ⟨401, errBody loginFailMsg⟩ := by
    unfold login
    cases hf : db.users.find? (fun r => r.username == u2) with
    | none =>
      exfalso
      rcases h2 with ⟨r, hr, hru⟩
      have := List.find?_eq_none.mp hf r hr
      simp [hru] at this
    | some u =>
      have hu2 : u.username = u2 := by simpa using List.find?_some hf
      have hmem := List.mem_of_find?_eq_some hf
      simp [h3 u hmem hu2]
  rw [e1, e2]
  exact ⟨rfl, rfl, rfl⟩

/-- Witness for Claim C3 at a concrete store: unknown user bob versus
known user alice with a wrong password. -/
theorem login_enumeration_resistance_witness :
    ((∀ r ∈ db1.users, r.username ≠ "bob") ∧
     (∃ r ∈ db1.users, r.username = "alice") ∧
     (∀ r ∈ db1.users, r.username = "alice" → bc0 "wrong" r.password = false)) ∧
    (login bc0 db1 "bob" "pw" = login bc0 db1 "alice" "wrong" ∧
     (login bc0 db1 "bob" "pw").status = 401 ∧
     (login bc0 db1 "bob" "pw").body = errBody loginFailMsg) :=
  ⟨⟨by decide, by decide, by decide⟩,
   login_enumeration_resistance bc0 db1 "bob" "pw" "alice" "wrong"
     (by decide) (by decide) (by decide)⟩

/-- Claim C8 counterexample: a concrete bad-credentials login failure has
status 401 but its message is the Russian text of server.js line 63, not
the string given in the claim. -/
theorem login_failure_message_counterexample :
    (login bc0 db1 "alice" "wrong").status = 401 ∧
    (login bc0 db1 "alice" "wrong").body = errBody "Неверный логин или пароль" ∧
    (login bc0 db1 "alice" "wrong").body ≠ errBody "Invalid username or password" := by
  refine ⟨by decide, by decide, by decide⟩

/-- Claim C8 (amended): every login failure response for bad credentials
has HTTP status 401 and body success false with the fixed message
"Неверный логин или пароль" (the Russian for "Invalid username or
password"), exactly that string in both failure branches. -/
theorem login_failure_response_amended (bc : String → String → Bool)
    (db : DB) (un pw : String) (h : (login bc db un pw).status ≠ 200) :
    login bc db un pw = ⟨401, errBody loginFailMsg⟩ :=
  login_non200_eq_generic bc db un pw h

/-- Witness for the amended Claim C8 at a concrete failing login. -/
theorem login_failure_response_amended_witness :
    (login bc0 db1 "alice" "wrong").status ≠ 200 ∧
    login bc0 db1 "alice" "wrong" = ⟨401, errBody loginFailMsg⟩ :=
  ⟨by decide, login_failure_response_amended bc0 db1 "alice" "wrong" (by decide)⟩

/-- Claim C9 counterexample: when the store or the hashing primitive
throws during login handling, the catch block of server.js lines 82 to 84
answers 500 with the raw error message, not the fixed generic message. -/
theorem login_exception_message_counterexample :
    loginCatch "connection terminated" =
      ⟨500, errBody "connection terminated"⟩ ∧
    (loginCatch "connection terminated").body ≠ errBody loginFailMsg ∧
    (loginCatch "connection terminated").status ≠ 401 := by
  refine ⟨rfl, by decide, by decide⟩

/-- Claim C9 (amended): the two bad-credentials causes (unknown username,
wrong password) share the same fixed generic message at 401, while a
store or hashing exception is surfaced with status 500 and the raw
underlying error message. -/
theorem login_message_by_cause_amended (bc : String → String → Bool)
    (db : DB) (un pw m : String)
    (h : (login bc db un pw).status ≠ 200) :
    login bc db un pw = ⟨401, errBody loginFailMsg⟩ ∧
    loginCatch m = ⟨500, errBody m⟩ :=
  ⟨login_non200_eq_generic bc db un pw h, rfl⟩

/-- Witness for the amended Claim C9 at a concrete failing login and a
concrete exception message. -/
theorem login_message_by_cause_amended_witness :
    (login bc0 db1 "bob" "pw").status ≠ 200 ∧
    (login bc0 db1 "bob" "pw" = ⟨401, errBody loginFailMsg⟩ ∧
     loginCatch "oops" = ⟨500, errBody "oops"⟩) :=
  ⟨by decide, login_message_by_cause_amended bc0 db1 "bob" "pw" "oops" (by decide)⟩

/-- Claim C1: on a valid registration whose email and username are
distinct from all existing records, register answers 200 with the new
id, the given email and username, and points 0, and getUser at the
returned id on the updated store answers the same payload. -/
theorem register_then_getUser_spec (bhash : String → String) (db : DB)
    (now : Nat) (e un pw : String)
    (he : ∀ r ∈ db.users, r.email ≠ e)
    (hu : ∀ r ∈ db.users, r.username ≠ un)
    (hi : ∀ r ∈ db.users, r.id ≠ db.nextId) :
    (register bhash db now (some e) (some un) (some pw)).1 =
      ⟨200, okUserBody db.nextId e un 0⟩ ∧
    getUser (register bhash db now (some e) (some un) (some pw)).2 db.nextId =
      ⟨200, okUserBody db.nextId e un 0⟩ := by
  have hany1 : db.users.any (fun r => r.email == e) = false := by
    rw [List.any_eq_false]
    intro r hr
    simpa using he r hr
  have hany2 : db.users.any (fun r => r.username == un) = false := by
    rw [List.any_eq_false]
    intro r hr
    simpa using hu r hr
  have hnone : db.users.find? (fun u => u.id == db.nextId) = none := by
    rw [List.find?_eq_none]
    intro x hx
    simpa using hi x hx
  constructor
  · simp [register, hany1, hany2]
  · simp [register, hany1, hany2, getUser, hnone]

/-- Witness for Claim C1: registering bob into the concrete store and
fetching the returned id. -/
theorem register_then_getUser_witness :
    ((∀ r ∈ db1.users, r.email ≠ "b@x.com") ∧
     (∀ r ∈ db1.users, r.username ≠ "bob") ∧
     (∀ r ∈ db1.users, r.id ≠ db1.nextId)) ∧
    ((register bhash0 db1 0 (some "b@x.com") (some "bob") (some "pw")).1 =
       ⟨200, okUserBody db1.nextId "b@x.com" "bob" 0⟩ ∧
     getUser (register bhash0 db1 0 (some "b@x.com") (some "bob") (some "pw")).2
         db1.nextId =
       ⟨200, okUserBody db1.nextId "b@x.com" "bob" 0⟩) :=
  ⟨⟨by decide, by decide, by decide⟩,
   register_then_getUser_spec bhash0 db1 0 "b@x.com" "bob" "pw"
     (by decide) (by decide) (by decide)⟩

/-- Claim C2: on a store with pairwise distinct usernames, login answers
200 exactly when a record with the given username exists and the password
verifies against its stored hash; the success payload is the id, email,
username and points of that record with no password field; every other
outcome is the 401 response with the fixed message. -/
theorem login_success_iff_spec (bc : String → String → Bool) (db : DB)
    (un pw : String)
    (hp : db.users.Pairwise (fun a b => a.username ≠ b.username)) :
    ((login bc db un pw).status = 200 ↔
      ∃ u ∈ db.users, u.username = un ∧ bc pw u.password = true) ∧
    (∀ u ∈ db.users, u.username = un → bc pw u.password = true →
      login bc db un pw = ⟨200, okUserBody u.id u.email u.username u.points⟩) ∧
    ((login bc db un pw).status ≠ 200 →
      login bc db un pw = ⟨401, errBody loginFailMsg⟩) ∧
    "password" ∉ bodyKeys (login bc db un pw).body := by
  have hfound : ∀ u ∈ db.users, u.username = un → bc pw u.password = true →
      login bc db un pw = ⟨200, okUserBody u.id u.email u.username u.points⟩ := by
    intro u hm hun hc
    have hf : db.users.find? (fun r => r.username == un) = some u := by
      simpa using find_key_eq (fun r => r.username) db.users un hp u hm hun
    unfold login
    rw [hf]
    simp [hc]
  refine ⟨?_, hfound, login_non200_eq_generic bc db un pw, ?_⟩
  · constructor
    · intro hs
      unfold login at hs
      cases hf : db.users.find? (fun r => r.username == un) with
      | none => rw [hf] at hs; simp at hs
      | some u =>
        rw [hf] at hs
        by_cases hc : bc pw u.password = true
        · exact ⟨u, List.mem_of_find?_eq_some hf,
            by simpa using List.find?_some hf, hc⟩
        · simp [hc] at hs
    · rintro ⟨u, hm, hun, hc⟩
      rw [hfound u hm hun hc]
  · rcases login_body_shape bc db un pw with hb | ⟨i, a, b, p, hb⟩ <;> rw [hb]
    · rw [bodyKeys_errBody]; decide
    · rw [bodyKeys_okUserBody]; decide

/-- Witness for Claim C2: a successful login of alice on the concrete
store, through the iff and the success-shape clauses of the theorem. -/
theorem login_success_iff_witness :
    db1.users.Pairwise (fun a b => a.username ≠ b.username) ∧
    (login bc0 db1 "alice" "secret").status = 200 ∧
    login bc0 db1 "alice" "secret" =
      ⟨200, okUserBody user1.id user1.email user1.username user1.points⟩ ∧
    "password" ∉ bodyKeys (login bc0 db1 "alice" "secret").body :=
  ⟨by decide,
   (login_success_iff_spec bc0 db1 "alice" "secret" (by decide)).1.mpr
     ⟨user1, by decide, by decide, by decide⟩,
   (login_success_iff_spec bc0 db1 "alice" "secret" (by decide)).2.1 user1
     (by decide) (by decide) (by decide),
   (login_success_iff_spec bc0 db1 "alice" "secret" (by decide)).2.2.2⟩

/-- Claim C4: starting from a user whose points are 0 (ids pairwise
distinct), addPoints with d1 and then with d2 answers 200 each time with
the updated running total, the final stored points are d1 + d2, and the
deltas range over all signed integers, negatives included. -/
theorem addPoints_twice_spec (db : DB) (uid : Nat) (u : User) (d1 d2 : Int)
    (hp : db.users.Pairwise (fun a b => a.id ≠ b.id))
    (hm : u ∈ db.users) (hid : u.id = uid) (h0 : u.points = 0) :
    (addPoints db uid d1).1 = ⟨200, okPointsBody uid u.username d1⟩ ∧
    (addPoints (addPoints db uid d1).2 uid d2).1 =
      ⟨200, okPointsBody uid u.username (d1 + d2)⟩ ∧
    ∃ v ∈ (addPoints (addPoints db uid d1).2 uid d2).2.users,
      v.id = uid ∧ v.points = d1 + d2 := by
  have h1 := addPoints_found db uid d1 u hp hm hid
  have hp1 : (runUpdate db.users uid d1).Pairwise (fun a b => a.id ≠ b.id) :=
    runUpdate_pairwise _ _ _ hp
  have hm1 : bumpRow uid d1 u ∈ runUpdate db.users uid d1 := by
    rw [runUpdate_eq_map]
    exact List.mem_map_of_mem _ hm
  have hid1 : (bumpRow uid d1 u).id = uid := by rw [bumpRow_id]; exact hid
  have hsnd : (addPoints db uid d1).2 = ⟨runUpdate db.users uid d1, db.nextId⟩ :=
    addPoints_store_effect db uid d1
  have h2 := addPoints_found ⟨runUpdate db.users uid d1, db.nextId⟩ uid d2
    (bumpRow uid d1 u) hp1 hm1 hid1
  refine ⟨?_, ?_, ?_⟩
  · rw [h1]
    simp [h0]
  · rw [hsnd, h2, bumpRow_of_match uid d1 u hid]
    simp [h0]
  · refine ⟨bumpRow uid d2 (bumpRow uid d1 u), ?_, ?_, ?_⟩
    · rw [hsnd, addPoints_store_effect]
      show bumpRow uid d2 (bumpRow uid d1 u) ∈
        runUpdate (DB.users ⟨runUpdate db.users uid d1, db.nextId⟩) uid d2
      rw [runUpdate_eq_map]
      exact List.mem_map_of_mem _ hm1
    · rw [bumpRow_id, bumpRow_id]
      exact hid
    · rw [bumpRow_of_match uid d2 _ hid1, bumpRow_of_match uid d1 u hid]
      simp [h0]

/-- Witness for Claim C4: points 5 then -2 on the concrete store, ending
at 3, with a negative delta accepted. -/
theorem addPoints_twice_witness :
    (db1.users.Pairwise (fun a b => a.id ≠ b.id) ∧ user1 ∈ db1.users ∧
     user1.id = 1 ∧ user1.points = 0) ∧
    ((addPoints db1 1 5).1 = ⟨200, okPointsBody 1 user1.username 5⟩ ∧
     (addPoints (addPoints db1 1 5).2 1 (-2)).1 =
       ⟨200, okPointsBody 1 user1.username (5 + -2)⟩ ∧
     ∃ v ∈ (addPoints (addPoints db1 1 5).2 1 (-2)).2.users,
       v.id = 1 ∧ v.points = 5 + -2) :=
  ⟨⟨by decide, by decide, by decide, by decide⟩,
   addPoints_twice_spec db1 1 user1 5 (-2)
     (by decide) (by decide) (by decide) (by decide)⟩

/-- Claim C7: register fails with status 400 and creates no record when
the email or the username duplicates an existing record, and likewise
when any required field is missing from the request. -/
theorem register_rejects_conflict_or_missing (bhash : String → String)
    (db : DB) (now : Nat) (e un pw : Option String)
    (h : (∃ r ∈ db.users, some r.email = e) ∨
         (∃ r ∈ db.users, some r.username = un) ∨
         e = none ∨ un = none ∨ pw = none) :
    (register bhash db now e un pw).1.status = 400 ∧
    (register bhash db now e un pw).2 = db := by
  rcases pw with _ | pw
  · exact ⟨rfl, rfl⟩
  · rcases e with _ | e
    · rcases un with _ | un <;> exact ⟨rfl, rfl⟩
    · rcases un with _ | un
      · exact ⟨rfl, rfl⟩
      · have hdup : (∃ r ∈ db.users, r.email = e) ∨
            ∃ r ∈ db.users, r.username = un := by
          rcases h with h | h | h | h | h
          · rcases h with ⟨r, hr, hre⟩
            exact Or.inl ⟨r, hr, Option.some.inj hre⟩
          · rcases h with ⟨r, hr, hru⟩
            exact Or.inr ⟨r, hr, Option.some.inj hru⟩
          · cases h
          · cases h
          · cases h
        by_cases h1 : db.users.any (fun r => r.email == e) = true
        · refine ⟨?_, ?_⟩ <;> simp [register, h1]
        · have h1f : db.users.any (fun r => r.email == e) = false := by
            simpa using h1
          have h2 : db.users.any (fun r => r.username == un) = true := by
            rcases hdup with ⟨r, hr, hre⟩ | ⟨r, hr, hru⟩
            · exact absurd (List.any_eq_true.mpr ⟨r, hr, by simp [hre]⟩) h1
            · exact List.any_eq_true.mpr ⟨r, hr, by simp [hru]⟩
          refine ⟨?_, ?_⟩ <;> simp [register, h1f, h2]

/-- Witness for Claim C7: registering with the already-taken email of
the concrete store fails with 400 and leaves the store as it was. -/
theorem register_rejects_conflict_witness :
    ((∃ r ∈ db1.users, some r.email = some "a@x.com") ∨
     (∃ r ∈ db1.users, some r.username = some "zed") ∨
     some "a@x.com" = none ∨ some "zed" = none ∨
     some "pw" = (none : Option String)) ∧
    ((register bhash0 db1 0 (some "a@x.com") (some "zed") (some "pw")).1.status = 400 ∧
     (register bhash0 db1 0 (some "a@x.com") (some "zed") (some "pw")).2 = db1) :=
  ⟨by decide,
   register_rejects_conflict_or_missing bhash0 db1 0
     (some "a@x.com") (some "zed") (some "pw") (by decide)⟩

/-- The points of the tracked user after n add-points steps of delta 1:
each step is the single atomic UPDATE of the store, so any interleaving
of n such requests is some sequence of n steps, and no update is lost. -/
lemma addPointsN_points (uid : Nat) :
    ∀ (n : Nat) (db : DB) (u : User),
      db.users.Pairwise (fun a b => a.id ≠ b.id) → u ∈ db.users → u.id = uid →
      ∃ v ∈ (addPointsN uid n db).users, v.id = uid ∧ v.points = u.points + n := by
  intro n
  induction n with
  | zero =>
    intro db u hp hm hid
    exact ⟨u, hm, hid, by simp⟩
  | succ n ih =>
    intro db u hp hm hid
    have hsnd := addPoints_store_effect db uid 1
    have hp1 := runUpdate_pairwise db.users uid 1 hp
    have hm1 : bumpRow uid 1 u ∈ runUpdate db.users uid 1 := by
      rw [runUpdate_eq_map]
      exact List.mem_map_of_mem _ hm
    have hid1 : (bumpRow uid 1 u).id = uid := by rw [bumpRow_id]; exact hid
    rcases ih ⟨runUpdate db.users uid 1, db.nextId⟩ (bumpRow uid 1 u)
      hp1 hm1 hid1 with ⟨v, hv, hvid, hvp⟩
    refine ⟨v, ?_, hvid, ?_⟩
    · show v ∈ (addPointsN uid (n + 1) db).users
      have hstep : addPointsN uid (n + 1) db =
          addPointsN uid n (addPoints db uid 1).2 := rfl
      rw [hstep, hsnd]
      exact hv
    · rw [hvp, bumpRow_of_match uid 1 u hid]
      have hpts : ({ u with points := u.points + 1 } : User).points =
          u.points + 1 := rfl
      rw [hpts]
      push_cast
      ring

/-- Claim C10: each add-points request performs exactly one atomic
store-level read-modify-write (the single UPDATE statement), so any
interleaving of n requests with delta 1 on a user starting at points 0 is
a sequence of n such steps and ends with points n: no update is lost. -/
theorem addPoints_no_lost_updates (db : DB) (uid : Nat) (u : User) (n : Nat)
    (hp : db.users.Pairwise (fun a b => a.id ≠ b.id))
    (hm : u ∈ db.users) (hid : u.id = uid) (h0 : u.points = 0) :
    (∀ (db2 : DB) (d : Int),
      (addPoints db2 uid d).2 = ⟨runUpdate db2.users uid d, db2.nextId⟩) ∧
    ∃ v ∈ (addPointsN uid n db).users, v.id = uid ∧ v.points = n := by
  refine ⟨fun db2 d => addPoints_store_effect db2 uid d, ?_⟩
  rcases addPointsN_points uid n db u hp hm hid with ⟨v, hv, hvid, hvp⟩
  refine ⟨v, hv, hvid, ?_⟩
  rw [hvp, h0]
  simp

/-- Witness for Claim C10: three unit increments on the concrete store
end with points 3, and a concrete add-points call has exactly the
single-UPDATE store effect. -/
theorem addPoints_no_lost_updates_witness :
    user1.points = 0 ∧
    (addPoints db1 1 5).2 = ⟨runUpdate db1.users 1 5, db1.nextId⟩ ∧
    ∃ v ∈ (addPointsN 1 3 db1).users, v.id = 1 ∧ v.points = 3 :=
  ⟨by decide,
   (addPoints_no_lost_updates db1 1 user1 3
     (by decide) (by decide) (by decide) (by decide)).1 db1 5,
   (addPoints_no_lost_updates db1 1 user1 3
     (by decide) (by decide) (by decide) (by decide)).2⟩
